import Mathlib

/-!
Verification development for the KULTA progressive-delivery controller
(Rust sources under `src/`).  The Rust data model and the pure parts of the
controller are shallowly embedded as Lean definitions; effectful calls
(Kubernetes API, Prometheus, advisor HTTP) are abstracted as an environment
record supplying their outcomes for one reconcile invocation.

Modelling conventions, used throughout:
* machine integers (`i32`, `i64`) are modelled as `Int`; `u64` as `Nat` with
  explicit `% 2 ^ 64` where overflow matters;
* UTC instants (`chrono::DateTime<Utc>`) are modelled as `Int` seconds;
  RFC3339 timestamp *strings* are modelled by `TS`, which either denotes an
  instant (`TS.t`) or fails to parse (`TS.bad`), matching the two outcomes of
  `DateTime::parse_from_rfc3339` that the Rust code branches on;
* duration strings ("30s", "5m", "2h", or malformed) are modelled by `DurStr`
  in already-lexed form — the numeric value and the unit letter — since the
  Rust `parse_duration` branches only on those;
* `maxSurge` / `maxUnavailable` strings ("25%", "5", or malformed) are
  modelled by `SurgeStr` in already-lexed form for the same reason.
-/

namespace Kulta

/-- Phase of a Rollout, from `crd/rollout.rs`. -/
inductive Phase where
  | Initializing
  | Progressing
  | Paused
  | Preview
  | Experimenting
  | Concluded
  | Completed
  | Failed
deriving DecidableEq, Repr

/-- Model of an RFC3339 timestamp string: either it denotes an instant
(seconds since epoch) or it is a string that fails to parse. -/
inductive TS where
  | t (sec : Int)
  | bad (s : String)
deriving DecidableEq, Repr

/-- Model of `DateTime::parse_from_rfc3339` on a `TS`. -/
def TS.parse? : TS → Option Int
  | .t s => some s
  | .bad _ => none

/-- Model of a duration string in already-lexed form: a numeric value and a
unit letter, or a string that does not match `number ++ unit` at all. -/
inductive DurStr where
  | secs (n : Nat)
  | mins (n : Nat)
  | hours (n : Nat)
  | bad (s : String)
deriving DecidableEq, Repr

/-- Rendering of a `DurStr` back to the source string (used in validation
error messages, mirroring the `format!` interpolation). -/
def DurStr.render : DurStr → String
  | .secs n => toString n ++ "s"
  | .mins n => toString n ++ "m"
  | .hours n => toString n ++ "h"
  | .bad s => s

/-- Embedding of `parse_duration` (`controller/rollout/validation.rs`):
zero is rejected, seconds are capped at 86400, minutes at 1440, hours at 168;
the result is in seconds.  (`checked_mul` cannot overflow under these caps,
so it is modelled as plain multiplication.) -/
def parse_duration : DurStr → Option Nat
  | .secs n => if n == 0 then none else if n ≤ 86400 then some n else none
  | .mins n => if n == 0 then none else if n ≤ 1440 then some (n * 60) else none
  | .hours n => if n == 0 then none else if n ≤ 168 then some (n * 3600) else none
  | .bad _ => none

/-- Model of a `maxSurge` / `maxUnavailable` string in already-lexed form:
`percent p` models `"p%"`, `absolute a` models `"a"`, `bad` models a string
whose numeric part fails `parse::<i32>()`. -/
inductive SurgeStr where
  | percent (p : Int)
  | absolute (a : Int)
  | bad (s : String)
deriving DecidableEq, Repr

/-- Rendering of a `SurgeStr` back to the source string (for validation
error messages). -/
def SurgeStr.render : SurgeStr → String
  | .percent p => toString p ++ "%"
  | .absolute a => toString a
  | .bad s => s

/-- Embedding of `((x as f64 * p as f64) / 100.0).ceil() as i32` for
nonnegative `x * p`: the product is below `2 ^ 53`, hence exactly
representable as an `f64`, and `k / 100.0` rounds to a double that is within
one ulp of the rational `k / 100` — far closer than the `1 / 100` gap to the
nearest integer not attained — so the `f64` ceiling equals the mathematical
ceiling, which for nonnegative integers is `(k + 99) / 100` in Euclidean
division. -/
def ceil_pct (num : Int) : Int := (num + 99) / 100

/-- Embedding of `is_valid_surge_format` (`controller/rollout/replicaset.rs`). -/
def is_valid_surge_format : SurgeStr → Bool
  | .percent p => decide (0 ≤ p ∧ p ≤ 100)
  | .absolute a => decide (0 ≤ a)
  | .bad _ => false

/-- Embedding of `parse_surge_value` (`controller/rollout/replicaset.rs`):
percentages in `[0, 100]` become `ceil(total * p / 100)`, nonnegative
absolutes pass through, anything else becomes `0`. -/
def parse_surge_value (value : SurgeStr) (total_replicas : Int) : Int :=
  match value with
  | .percent p =>
      if 0 ≤ p ∧ p ≤ 100 then ceil_pct (total_replicas * p) else 0
  | .absolute a => if 0 ≤ a then a else 0
  | .bad _ => 0

/-- Embedding of `calculate_replica_split_with_surge`
(`controller/rollout/replicaset.rs` lines 133–185), with the two `let mut`
adjustment blocks written as functional updates in source order. -/
def calculate_replica_split_with_surge (total_replicas canary_weight : Int)
    (max_surge max_unavailable : Option SurgeStr) : Int × Int :=
  let surge := parse_surge_value (max_surge.getD (.percent 25)) total_replicas
  let unavailable := parse_surge_value (max_unavailable.getD (.absolute 0)) total_replicas
  let ideal_canary : Int :=
    if canary_weight = 0 then 0
    else if canary_weight = 100 then total_replicas
    else ceil_pct (total_replicas * canary_weight)
  let max_total := total_replicas + surge
  let min_total := max (total_replicas - unavailable) 0
  let canary0 := ideal_canary
  let stable0 := max (total_replicas - ideal_canary) 0
  let pair1 :=
    if stable0 + canary0 > max_total then
      let excess := stable0 + canary0 - max_total
      let canary_reduction := min canary0 excess
      let canary1 := canary0 - canary_reduction
      let excess1 := excess - canary_reduction
      if excess1 > 0 then (max (stable0 - excess1) 0, canary1) else (stable0, canary1)
    else (stable0, canary0)
  if pair1.1 + pair1.2 < min_total then
    (pair1.1 + (min_total - (pair1.1 + pair1.2)), pair1.2)
  else pair1

/-- A/B variant identifier, from `crd/rollout.rs`. -/
inductive ABVariant where
  | A
  | B
deriving DecidableEq, Repr

/-- Reason an A/B experiment concluded, from `crd/rollout.rs`. -/
inductive ABConclusionReason where
  | SignificanceReached
  | MaxDurationExceeded
  | ManualConclusion
  | ConsensusReached
deriving DecidableEq, Repr

/-- Per-metric A/B comparison result, from `crd/rollout.rs`.  The `f64`
payload fields (`value_a`, `value_b`, `confidence`) are carried by the Rust
struct but never read by the conclusion aggregator or the status machine, so
they are omitted from the model. -/
structure ABMetricResult where
  name : String
  is_significant : Bool
  winner : Option ABVariant
deriving DecidableEq, Repr

/-- Embedding of `determine_experiment_conclusion`
(`controller/prometheus_ab.rs` lines 169–211).  The `for` loop counting
winners among the significant results is expressed with `List.countP`. -/
def determine_experiment_conclusion (results : List ABMetricResult) :
    Option (ABVariant × ABConclusionReason) :=
  if results.isEmpty then none
  else
    let significant_results := results.filter (fun r => r.is_significant)
    if significant_results.isEmpty then none
    else
      let a_wins := significant_results.countP (fun r => decide (r.winner = some .A))
      let b_wins := significant_results.countP (fun r => decide (r.winner = some .B))
      if a_wins > 0 ∧ b_wins = 0 then some (.A, .ConsensusReached)
      else if b_wins > 0 ∧ a_wins = 0 then some (.B, .ConsensusReached)
      else if a_wins = significant_results.length ∨ b_wins = significant_results.length then
        some (if a_wins > b_wins then ABVariant.A else ABVariant.B, .SignificanceReached)
      else none

/-- Pause entry of a canary step, from `crd/rollout.rs`. -/
structure PauseSpec where
  duration : Option DurStr
deriving DecidableEq, Repr

/-- One canary step, from `crd/rollout.rs`. -/
structure CanaryStep where
  set_weight : Option Int
  pause : Option PauseSpec
deriving DecidableEq, Repr

/-- Gateway API route reference, from `crd/rollout.rs`. -/
structure GatewayAPIRouting where
  http_route : String
deriving DecidableEq, Repr

/-- Traffic-routing configuration, from `crd/rollout.rs`. -/
structure TrafficRouting where
  gateway_api : Option GatewayAPIRouting
deriving DecidableEq, Repr

/-- Failure policy for unreachable metrics backends, from `crd/rollout.rs`. -/
inductive FailurePolicy where
  | Pause
  | Continue
  | Rollback
deriving DecidableEq, Repr

/-- One metric to monitor, from `crd/rollout.rs`.  The numeric fields
(`threshold`, `interval`, `failure_threshold`, `min_sample_size`) are opaque
payload handed to the `MetricsQuerier` capability and never read by the
embedded controller logic, so only the name is modelled. -/
structure MetricConfig where
  name : String
deriving DecidableEq, Repr

/-- Analysis configuration for canary / blue-green / simple, from
`crd/rollout.rs` (the `prometheus` address block is opaque payload and
omitted). -/
structure AnalysisConfig where
  failure_policy : Option FailurePolicy
  warmup_duration : Option DurStr
  metrics : List MetricConfig
deriving DecidableEq, Repr

/-- Simple strategy, from `crd/rollout.rs`. -/
structure SimpleStrategy where
  analysis : Option AnalysisConfig
deriving DecidableEq, Repr

/-- Blue-green strategy, from `crd/rollout.rs`. -/
structure BlueGreenStrategy where
  active_service : String
  preview_service : String
  port : Option Int
  auto_promotion_enabled : Option Bool
  auto_promotion_seconds : Option Int
  traffic_routing : Option TrafficRouting
  analysis : Option AnalysisConfig
deriving DecidableEq, Repr

/-- Canary strategy, from `crd/rollout.rs`. -/
structure CanaryStrategy where
  canary_service : String
  stable_service : String
  port : Option Int
  steps : List CanaryStep
  traffic_routing : Option TrafficRouting
  analysis : Option AnalysisConfig
deriving DecidableEq, Repr

/-- Header/cookie match type for A/B routing, from `crd/rollout.rs`. -/
inductive ABMatchType where
  | Exact
  | RegularExpression
deriving DecidableEq, Repr

/-- Header match for A/B routing, from `crd/rollout.rs`. -/
structure ABHeaderMatch where
  name : String
  value : String
  match_type : Option ABMatchType
deriving DecidableEq, Repr

/-- Cookie match for A/B routing, from `crd/rollout.rs`. -/
structure ABCookieMatch where
  name : String
  value : String
deriving DecidableEq, Repr

/-- Match conditions routing to variant B, from `crd/rollout.rs`. -/
structure ABMatch where
  header : Option ABHeaderMatch
  cookie : Option ABCookieMatch
deriving DecidableEq, Repr

/-- A/B analysis configuration, from `crd/rollout.rs` (the `prometheus`
block, per-metric list and `confidence_level` are opaque payload for the
statistical engine and omitted; the fields the orchestrator branches on are
kept). -/
structure ABAnalysisConfig where
  min_duration : Option DurStr
  min_sample_size : Option Int
deriving DecidableEq, Repr

/-- A/B testing strategy, from `crd/rollout.rs`. -/
structure ABStrategy where
  variant_a_service : String
  variant_b_service : String
  port : Option Int
  variant_b_match : ABMatch
  traffic_routing : Option TrafficRouting
  max_duration : Option DurStr
  analysis : Option ABAnalysisConfig
deriving DecidableEq, Repr

/-- Strategy record of the spec, from `crd/rollout.rs`: four optional
sub-records, of which exactly one is meant to be populated. -/
structure StrategySpec where
  simple : Option SimpleStrategy
  canary : Option CanaryStrategy
  blue_green : Option BlueGreenStrategy
  ab_testing : Option ABStrategy
deriving DecidableEq, Repr

/-- Advisor consultation level.  Modelled from the spec: the `AdvisorLevel`
enum is referenced by `controller/rollout/reconcile.rs` but its definition is
not among the sources under `src/`; the spec lists the levels
Off, Context, Advised, Planned, Driven. -/
inductive AdvisorLevel where
  | Off
  | Context
  | Advised
  | Planned
  | Driven
deriving DecidableEq, Repr

/-- Advisor configuration of the spec.  Modelled from the spec: referenced as
`rollout.spec.advisor` by `reconcile.rs` (fields `level`, `endpoint`) but not
defined under `src/`. -/
structure AdvisorConfig where
  level : AdvisorLevel
  endpoint : Option String
  timeout_seconds : Option Int
deriving DecidableEq, Repr

/-- Action recommended by the advisor.  Modelled from the spec
(`action ∈ {Continue, Rollback, Pause, …}`); the type is referenced by
`controller/advisor.rs` but not defined under `src/`. -/
inductive RecommendedAction where
  | Continue
  | Rollback
  | Pause
  | Other (tag : String)
deriving DecidableEq, Repr

/-- Advisor recommendation.  Modelled from the spec
(`{action, confidence, reasoning}`); referenced by `controller/advisor.rs`
and `reconcile.rs` but not defined under `src/`.  The `f64` confidence is
modelled as a rational. -/
structure Recommendation where
  action : RecommendedAction
  confidence : Rat
  reasoning : String
deriving DecidableEq, Repr

/-- Label selector, from `k8s_openapi` (only cloned by the embedded code). -/
structure LabelSelector where
  match_labels : List (String × String)
deriving DecidableEq, Repr

/-- Pod template.  The embedded code only clones templates or serializes them
to canonical JSON; the model covers the sub-family of `PodTemplateSpec`
values whose only populated field is `metadata.name` (plus the empty
template), which is enough to exercise the hash function on distinct
serializations. -/
structure PodTemplate where
  meta_name : Option String
deriving DecidableEq, Repr

/-- Rollout spec.  Fields from `crd/rollout.rs`; the `advisor` field is
modelled from the spec (read by `reconcile.rs` as `rollout.spec.advisor`,
not present in the CRD file under `src/`). -/
structure RolloutSpec where
  replicas : Int
  selector : LabelSelector
  template : PodTemplate
  strategy : StrategySpec
  max_surge : Option SurgeStr
  max_unavailable : Option SurgeStr
  progress_deadline_seconds : Option Int
  advisor : AdvisorConfig
deriving DecidableEq, Repr

/-- Controller decision action, from `crd/rollout.rs`. -/
inductive DecisionAction where
  | Initialize
  | StepAdvance
  | Promotion
  | Rollback
  | Pause
  | Resume
  | Complete
deriving DecidableEq, Repr

/-- Decision record, from `crd/rollout.rs`.  Only the fields read by the
embedded code (`timestamp` and `action`, formatted into the advisor context)
are modelled. -/
structure Decision where
  timestamp : TS
  action : DecisionAction
deriving DecidableEq, Repr

/-- A/B experiment status block, from `crd/rollout.rs`. -/
structure ABExperimentStatus where
  started_at : TS
  concluded_at : Option TS
  sample_size_a : Option Int
  sample_size_b : Option Int
  results : List ABMetricResult
  winner : Option ABVariant
  conclusion_reason : Option ABConclusionReason
deriving DecidableEq, Repr

/-- Rollout status, from `crd/rollout.rs`.  Field defaults mirror the Rust
`Default` implementation.  `last_decision_source` is written (as `None`) by
`reconcile.rs` though absent from the CRD file under `src/`; it is carried as
an optional string. -/
structure RolloutStatus where
  replicas : Int := 0
  ready_replicas : Int := 0
  updated_replicas : Int := 0
  current_step_index : Option Int := none
  current_weight : Option Int := none
  phase : Option Phase := none
  message : Option String := none
  pause_start_time : Option TS := none
  step_start_time : Option TS := none
  progress_started_at : Option TS := none
  decisions : List Decision := []
  ab_experiment : Option ABExperimentStatus := none
  last_decision_source : Option String := none
deriving DecidableEq, Repr

/-- Object metadata (the fields read by the embedded code).  `annots` models
the `annotations` map as an association list (`None` and an empty map are
indistinguishable to the lookups the code performs); `creation_timestamp` is
a Kubernetes `Time` value, already an instant. -/
structure ObjectMeta where
  name : Option String := none
  ns : Option String := none
  annots : List (String × String) := []
  creation_timestamp : Option Int := none
deriving DecidableEq, Repr

/-- The Rollout resource, from `crd/rollout.rs`. -/
structure Rollout where
  metadata : ObjectMeta
  spec : RolloutSpec
  status : Option RolloutStatus
deriving DecidableEq, Repr

/-- Lookup of an annotation value by key. -/
def ObjectMeta.lookupAnnot (m : ObjectMeta) (k : String) : Option String :=
  (m.annots.find? (fun p => p.1 == k)).map (·.2)

/-- Embedding of `has_promote_annotation` (`controller/rollout/status.rs`):
true iff the `kulta.io/promote` annotation is present with value `"true"`. -/
def has_promote_annot (r : Rollout) : Bool :=
  ((r.metadata.lookupAnnot "kulta.io/promote").map (fun value => value == "true")).getD false

/-- Embedding of the private `has_promote_annotation` of
`controller/strategies/ab_testing.rs`, which (unlike the one in `status.rs`)
tests mere presence of the annotation, ignoring its value. -/
def has_promote_annot_present (r : Rollout) : Bool :=
  (r.metadata.lookupAnnot "kulta.io/promote").isSome

/-- Strategy handler selected by the dispatcher.  The repository implements
four handlers (`SimpleStrategyHandler`, `BlueGreenStrategyHandler`,
`CanaryStrategyHandler`, `ABTestingStrategyHandler`); the `abTesting`
arm exists here because `ABTestingStrategyHandler` exists in
`controller/strategies/ab_testing.rs`. -/
inductive StrategyKind where
  | simple
  | blueGreen
  | canary
  | abTesting
deriving DecidableEq, Repr

/-- Embedding of `select_strategy` (`controller/strategies/mod.rs` lines
256–270): `simple` if set, else `blueGreen` if set, else the canary handler
as default.  Note the function contains no branch for `ab_testing`. -/
def select_strategy (r : Rollout) : StrategyKind :=
  if r.spec.strategy.simple.isSome then .simple
  else if r.spec.strategy.blue_green.isSome then .blueGreen
  else .canary

/-- The `name()` of each strategy handler, from the four handler files. -/
def StrategyKind.sname : StrategyKind → String
  | .simple => "simple"
  | .blueGreen => "blue-green"
  | .canary => "canary"
  | .abTesting => "ab-testing"

/-- The `supports_metrics_analysis()` of each handler: `false` for simple
(`strategies/simple.rs`), `true` for the others. -/
def StrategyKind.supports_metrics_analysis : StrategyKind → Bool
  | .simple => false
  | .blueGreen => true
  | .canary => true
  | .abTesting => true

/-- Embedding of `initialize_rollout_status` (`controller/rollout/status.rs`
lines 71–129); `now` is the injected clock instant from which the RFC3339
strings are produced. -/
def initialize_rollout_status (r : Rollout) (now : Int) : RolloutStatus :=
  if r.spec.strategy.simple.isSome then
    { phase := some .Completed
      current_step_index := none
      current_weight := none
      message := some "Simple rollout completed: all replicas updated" }
  else if r.spec.strategy.blue_green.isSome then
    { phase := some .Preview
      current_step_index := none
      current_weight := none
      message := some "Blue-green rollout: preview environment ready"
      pause_start_time := some (.t now) }
  else
    match r.spec.strategy.canary with
    | none => {}
    | some canary_strategy =>
      let first_step := canary_strategy.steps.head?
      let first_step_weight := (first_step.bind (·.set_weight)).getD 0
      let pause_start_time : Option TS :=
        match first_step with
        | some step => if step.pause.isSome then some (.t now) else none
        | none => none
      { current_step_index := some 0
        current_weight := some first_step_weight
        phase := some .Progressing
        message := some ("Starting canary rollout at step 0 ("
          ++ toString first_step_weight ++ "% traffic)")
        pause_start_time := pause_start_time
        progress_started_at := some (.t now) }

/-- Step lookup `steps.get(idx as usize)` for an `i32` index: a negative
index wraps to a huge `usize` under `as usize`, so the lookup misses. -/
def stepAt (steps : List CanaryStep) (idx : Int) : Option CanaryStep :=
  if idx < 0 then none else steps.get? idx.toNat

/-- Embedding of `should_progress_to_next_step`
(`controller/rollout/status.rs` lines 144–211).  The Rust control flow
returns `true` on: no pause on the current step; the promote annotation; or
a timed pause whose duration has elapsed since `pause_start_time`.  Every
other path — including a missing or unparsable `pause_start_time` — falls
through to `false`. -/
def should_progress_to_next_step (r : Rollout) (now : Int) : Bool :=
  match r.status with
  | none => false
  | some status =>
    if status.phase = some .Paused then false
    else
      match status.current_step_index with
      | none => false
      | some current_step_index =>
        match r.spec.strategy.canary with
        | none => false
        | some canary_strategy =>
          match stepAt canary_strategy.steps current_step_index with
          | none => false
          | some current_step =>
            match current_step.pause with
            | none => true
            | some pause =>
              if has_promote_annot r then true
              else
                match pause.duration with
                | none => false
                | some duration_str =>
                  match parse_duration duration_str with
                  | none => false
                  | some duration =>
                    match status.pause_start_time with
                    | none => false
                    | some ts =>
                      match ts.parse? with
                      | none => false
                      | some pause_start =>
                        decide (now - pause_start ≥ (duration : Int))

/-- Embedding of `advance_to_next_step` (`controller/rollout/status.rs`
lines 256–328).  The bound check `next_step_index as usize >= len` treats a
negative index as a huge `usize` (hence ≥ len); inside the in-range branch
the indexing `steps[next as usize]` cannot miss, so a default step stands in
for the unreachable out-of-range case. -/
def advance_to_next_step (r : Rollout) (now : Int) : RolloutStatus :=
  match r.status with
  | none => initialize_rollout_status r now
  | some current_status =>
    let current_step_index := current_status.current_step_index.getD (-1)
    let next_step_index := current_step_index + 1
    match r.spec.strategy.canary with
    | none => current_status
    | some canary_strategy =>
      if next_step_index < 0 ∨ (canary_strategy.steps.length : Int) ≤ next_step_index then
        { current_status with
          current_step_index := some next_step_index
          current_weight := some 100
          phase := some .Completed
          message := some "Rollout completed: 100% traffic to canary" }
      else
        let next_step := (canary_strategy.steps.get? next_step_index.toNat).getD ⟨none, none⟩
        let next_weight := next_step.set_weight.getD 0
        let phase_message : Phase × String :=
          if next_weight = 100 then
            (.Completed, "Rollout completed: 100% traffic to canary")
          else
            (.Progressing, "Advanced to step " ++ toString next_step_index
              ++ " (" ++ toString next_weight ++ "% traffic)")
        let pause_start_time : Option TS :=
          if next_step.pause.isSome then some (.t now) else none
        { current_status with
          current_step_index := some next_step_index
          current_weight := some next_weight
          phase := some phase_message.1
          message := some phase_message.2
          pause_start_time := pause_start_time }

/-- Embedding of `compute_desired_status` (`controller/rollout/status.rs`
lines 228–242): initialize when no status, advance when progression is due,
otherwise return the observed status unchanged. -/
def compute_desired_status (r : Rollout) (now : Int) : RolloutStatus :=
  if r.status.isNone then initialize_rollout_status r now
  else if should_progress_to_next_step r now then advance_to_next_step r now
  else (r.status.getD {})

/-- Embedding of `calculate_requeue_interval`
(`controller/rollout/status.rs` lines 357–384); result in seconds.
`saturating_sub` is `Nat` subtraction; `clamp(5, 300)` is
`min (max · 5) 300`. -/
def calculate_requeue_interval (pause_start : Option Int) (pause_duration : Option Nat)
    (now : Int) : Nat :=
  match pause_start, pause_duration with
  | some start, some duration =>
    let elapsed_secs : Nat := (max (now - start) 0).toNat
    let remaining_secs := duration - elapsed_secs
    min (max remaining_secs 5) 300
  | _, _ => 30

/-- Embedding of `calculate_requeue_interval_from_rollout`
(`controller/rollout/status.rs` lines 387–412). -/
def calculate_requeue_interval_from_rollout (r : Rollout) (status : RolloutStatus)
    (now : Int) : Nat :=
  let pause_start := status.pause_start_time.bind TS.parse?
  let pause_duration :=
    status.current_step_index.bind (fun step_index =>
      r.spec.strategy.canary.bind (fun canary =>
        (stepAt canary.steps step_index).bind (fun step =>
          step.pause.bind (fun pause => pause.duration.bind parse_duration))))
  calculate_requeue_interval pause_start pause_duration now

/-- Embedding of `is_progress_deadline_exceeded`
(`controller/rollout/status.rs` lines 21–50). -/
def is_progress_deadline_exceeded (status : RolloutStatus) (deadline_seconds : Int)
    (now : Int) : Bool :=
  match status.phase with
  | some .Progressing | some .Preview =>
    match status.progress_started_at with
    | none => false
    | some start_time =>
      match start_time.parse? with
      | none => false
      | some started => decide (now - started > deadline_seconds)
  | _ => false

/-- Embedding of `BlueGreenStrategyHandler::should_auto_promote`
(`controller/strategies/blue_green.rs` lines 35–72).  The elapsed-time check
at line 67 reads `chrono::Utc::now()` directly instead of the injected
clock; that wall-clock instant is the explicit `wallNow` argument here, kept
separate from the injected `now` used elsewhere. -/
def should_auto_promote (r : Rollout) (status : RolloutStatus) (wallNow : Int) : Bool :=
  match r.spec.strategy.blue_green with
  | none => false
  | some blue_green =>
    if ¬ blue_green.auto_promotion_enabled.getD false then false
    else
      match blue_green.auto_promotion_seconds with
      | none => false
      | some auto_seconds =>
        match status.pause_start_time with
        | none => false
        | some preview_start_str =>
          match preview_start_str.parse? with
          | none => false
          | some preview_start => decide (wallNow - preview_start ≥ auto_seconds)

/-- Embedding of `BlueGreenStrategyHandler::compute_next_status`
(`controller/strategies/blue_green.rs` lines 164–227).  `now` is the
injected clock (used for initialization timestamps), `wallNow` the direct
wall-clock read inside `should_auto_promote`. -/
def blue_green_compute_next_status (r : Rollout) (now wallNow : Int) : RolloutStatus :=
  match r.status with
  | none => initialize_rollout_status r now
  | some current_status =>
    let current_phase := current_status.phase.getD .Preview
    match current_phase with
    | .Preview =>
      if has_promote_annot r then
        { current_status with
          phase := some .Completed
          message := some "Blue-green rollout completed: promoted to production" }
      else if should_auto_promote r current_status wallNow then
        { current_status with
          phase := some .Completed
          message := some "Blue-green rollout completed: auto-promoted after duration" }
      else current_status
    | .Completed => current_status
    | .Failed => current_status
    | _ => initialize_rollout_status r now

/-- Embedding of `ABTestingStrategyHandler::compute_next_status`
(`controller/strategies/ab_testing.rs` lines 134–208).  The function
receives the injected clock as a parameter the source binds as `_now` and
never reads; in the initialization arm (line 191) it instead reads
`chrono::Utc::now()` directly, modelled as `wallNow`. -/
def ab_testing_compute_next_status (r : Rollout) (_now wallNow : Int) : RolloutStatus :=
  let current_status := r.status
  let current_phase := current_status.bind (·.phase)
  match current_phase with
  | some .Completed =>
    { current_status.getD {} with
      phase := some .Completed
      message := some "A/B experiment completed" }
  | some .Concluded =>
    if has_promote_annot_present r then
      { current_status.getD {} with
        phase := some .Completed
        message := some "A/B experiment promoted" }
    else
      { current_status.getD {} with
        phase := some .Concluded
        message := some "A/B experiment concluded, awaiting promotion" }
  | some .Experimenting =>
    let has_conclusion :=
      (((current_status.bind (·.ab_experiment)).bind (·.conclusion_reason))).isSome
    if has_conclusion then
      { current_status.getD {} with
        phase := some .Concluded
        message := some "A/B experiment concluded, awaiting promotion" }
    else
      { current_status.getD {} with
        phase := some .Experimenting
        message := some "A/B experiment in progress" }
  | _ =>
    { phase := some .Experimenting
      message := some "A/B experiment started"
      ab_experiment := some
        { started_at := .t wallNow
          concluded_at := none
          sample_size_a := none
          sample_size_b := none
          results := []
          winner := none
          conclusion_reason := none } }

/-- Embedding of `SimpleStrategyHandler::compute_next_status`
(`controller/strategies/simple.rs` lines 78–94). -/
def simple_compute_next_status (r : Rollout) : RolloutStatus :=
  { phase := some .Completed
    current_step_index := none
    current_weight := none
    message := some ("Simple rollout completed: " ++ toString r.spec.replicas
      ++ " replicas updated")
    replicas := r.spec.replicas
    ready_replicas := 0
    updated_replicas := 0
    pause_start_time := none
    decisions := [] }

/-- Status computation as dispatched by the reconcile orchestrator
(`reconcile.rs` line 507 calls `strategy.compute_next_status`).  The canary
handler's `compute_next_status` is `todo!()` in
`controller/strategies/canary.rs`, i.e. it panics; that outcome is `none`.
The `abTesting` arm is present for the handler that exists in the tree,
although `select_strategy` never returns it. -/
def compute_next_status_dispatch (r : Rollout) (now wallNow : Int) : Option RolloutStatus :=
  match select_strategy r with
  | .simple => some (simple_compute_next_status r)
  | .blueGreen => some (blue_green_compute_next_status r now wallNow)
  | .canary => none
  | .abTesting => some (ab_testing_compute_next_status r now wallNow)

/-- Per-step validation loop of `validate_rollout`
(`controller/rollout/validation.rs` lines 49–73), carrying the running index
for error messages. -/
def validate_steps : List CanaryStep → Nat → Except String Unit
  | [], _ => .ok ()
  | step :: rest, i =>
    match step.set_weight with
    | none => .error ("steps[" ++ toString i ++ "].setWeight is required")
    | some weight =>
      if ¬ (0 ≤ weight ∧ weight ≤ 100) then
        .error ("steps[" ++ toString i ++ "].setWeight must be 0-100, got " ++ toString weight)
      else
        match step.pause with
        | none => validate_steps rest (i + 1)
        | some pause =>
          match pause.duration with
          | none => validate_steps rest (i + 1)
          | some duration =>
            if (parse_duration duration).isNone then
              .error ("steps[" ++ toString i ++ "].pause.duration invalid: " ++ duration.render)
            else validate_steps rest (i + 1)

/-- Embedding of `validate_rollout` (`controller/rollout/validation.rs`
lines 22–118), with checks in source order. -/
def validate_rollout (r : Rollout) : Except String Unit :=
  if r.spec.replicas < 0 then
    .error ("spec.replicas must be >= 0, got " ++ toString r.spec.replicas)
  else
    let canary_check : Except String Unit :=
      match r.spec.strategy.canary with
      | none => .ok ()
      | some canary =>
        if canary.canary_service.isEmpty then
          .error "spec.strategy.canary.canaryService cannot be empty"
        else if canary.stable_service.isEmpty then
          .error "spec.strategy.canary.stableService cannot be empty"
        else if canary.steps.isEmpty then
          .error "spec.strategy.canary.steps must have at least one step"
        else
          match validate_steps canary.steps 0 with
          | .error e => .error e
          | .ok _ =>
            match canary.traffic_routing with
            | none => .ok ()
            | some traffic_routing =>
              match traffic_routing.gateway_api with
              | none => .ok ()
              | some gateway =>
                if gateway.http_route.isEmpty then
                  .error "spec.strategy.canary.trafficRouting.gatewayAPI.httpRoute cannot be empty"
                else .ok ()
    match canary_check with
    | .error e => .error e
    | .ok _ =>
      let surge_check : Except String Unit :=
        match r.spec.max_surge with
        | none => .ok ()
        | some max_surge =>
          if ¬ is_valid_surge_format max_surge then
            .error ("spec.maxSurge invalid format " ++ max_surge.render
              ++ ": must be percentage (e.g. 25%) or absolute number (e.g. 5)")
          else .ok ()
      match surge_check with
      | .error e => .error e
      | .ok _ =>
        let unavailable_check : Except String Unit :=
          match r.spec.max_unavailable with
          | none => .ok ()
          | some max_unavailable =>
            if ¬ is_valid_surge_format max_unavailable then
              .error ("spec.maxUnavailable invalid format " ++ max_unavailable.render
                ++ ": must be percentage (e.g. 25%) or absolute number (e.g. 0)")
            else .ok ()
        match unavailable_check with
        | .error e => .error e
        | .ok _ =>
          match r.spec.progress_deadline_seconds with
          | none => .ok ()
          | some deadline =>
            if deadline < 0 then
              .error ("spec.progressDeadlineSeconds must be >= 0, got " ++ toString deadline)
            else .ok ()

/-- Result (`controller/rollout/reconcile.rs` struct
`ABExperimentEvaluation`) of the A/B experiment evaluator. -/
structure ABExperimentEvaluation where
  should_conclude : Bool
  winner : Option ABVariant
  reason : Option ABConclusionReason
  results : List ABMetricResult
  sample_size_a : Option Int
  sample_size_b : Option Int
deriving DecidableEq, Repr

/-- Environment of one reconcile invocation: the outcomes of every effectful
call the orchestrator makes, plus the two clocks.

* `replicasetsResult` / `trafficResult`: outcomes of the strategy handler
  calls `reconcile_replicasets` / `reconcile_traffic` (these are abstracted
  because they talk to the Kubernetes API; note the canary handler's methods
  are `todo!()` in this tree, and a panicking call would abort the invocation
  with no writes at all, which only strengthens theorems conditioned on the
  calls returning);
* `metricsResult`: outcome of `MetricsQuerier::evaluate_all_metrics`;
* `advisorResult`: outcome of `AnalysisAdvisor::advise` for the resolved
  advisor;
* `abEval`: the `ABExperimentEvaluation` produced by
  `evaluate_ab_experiment` (that function returns `Ok` on every path,
  turning Prometheus failures into an inconclusive evaluation, so no error
  case is needed);
* `statusPatchResult` / `promotePatchResult`: outcomes of the
  `patch_status` / promote-annotation `patch` API calls;
* `now`: the injected `ctx.clock.now()`;
* `wallNow`: the instant returned by direct `chrono::Utc::now()` calls
  inside strategy code. -/
structure Env where
  isLeader : Bool
  replicasetsResult : Except String Unit
  trafficResult : Except String Unit
  metricsResult : Except String Bool
  advisorResult : Except String Recommendation
  abEval : ABExperimentEvaluation
  statusPatchResult : Except String Unit
  promotePatchResult : Except String Unit
  now : Int
  wallNow : Int
deriving Repr

/-- Embedding of `evaluate_rollout_metrics`
(`controller/rollout/reconcile.rs` lines 626–695): only a canary strategy
with an analysis block is evaluated; a configured, parsable warmup that has
not elapsed since the step start (or a missing/unparsable step start) skips
evaluation as healthy; otherwise the `MetricsQuerier` outcome is returned. -/
def evaluate_rollout_metrics (r : Rollout) (env : Env) : Except String Bool :=
  match r.spec.strategy.canary with
  | none => .ok true
  | some canary_strategy =>
    match canary_strategy.analysis with
    | none => .ok true
    | some analysis_config =>
      let warmup_skip : Bool :=
        match analysis_config.warmup_duration with
        | none => false
        | some warmup_str =>
          match parse_duration warmup_str with
          | none => false
          | some warmup_duration =>
            let step_start_time : Option Int :=
              ((r.status.bind (·.step_start_time)).bind TS.parse?).orElse
                (fun _ => r.metadata.creation_timestamp)
            match step_start_time with
            | some start_time => decide (env.now - start_time < (warmup_duration : Int))
            | none => true
      if warmup_skip then .ok true
      else env.metricsResult

/-- Reconcile error taxonomy (`reconcile.rs` enum `ReconcileError`), reduced
to the variants the embedded paths can produce. -/
inductive RecError where
  | missingNamespace
  | validationError (msg : String)
  | metricsEvaluationFailed (msg : String)
  | strategyError (msg : String)
  | kubeError (msg : String)
deriving DecidableEq, Repr

/-- How a reconcile invocation ended: a requeue after the given number of
seconds, an error returned to the controller framework, or a panic inside a
strategy handler (`diverged`, reachable through the canary handler's
`todo!()` status computer). -/
inductive RecResult where
  | requeue (secs : Nat)
  | failed (e : RecError)
  | diverged
deriving DecidableEq, Repr

/-- Record of one `emit_advisor_occurrence` call. -/
structure AdvisorOcc where
  strategy : String
  recommendation : Recommendation
  metrics_healthy : Bool
deriving DecidableEq, Repr

/-- Record of one `emit_occurrence` call (a phase-transition occurrence). -/
structure PhaseOcc where
  old_phase : Option Phase
  new_phase : Phase
  strategy : String
deriving DecidableEq, Repr

/-- Observable outcome of one reconcile invocation: the status patches it
issued (in order), the advisor and phase-transition occurrences it emitted,
whether it issued the follow-up patch clearing the promote annotation, and
how it returned. -/
structure RecOutput where
  statusPatches : List RolloutStatus := []
  advisorOccs : List AdvisorOcc := []
  phaseOccs : List PhaseOcc := []
  promoteCleared : Bool := false
  result : RecResult
deriving DecidableEq, Repr

/-- Rendering of `format!("{:?}", evaluation.reason)` for the Concluded
status message. -/
def reasonDebug : Option ABConclusionReason → String
  | none => "None"
  | some .SignificanceReached => "Some(SignificanceReached)"
  | some .MaxDurationExceeded => "Some(MaxDurationExceeded)"
  | some .ManualConclusion => "Some(ManualConclusion)"
  | some .ConsensusReached => "Some(ConsensusReached)"

/-- Tail of the reconcile orchestrator (`reconcile.rs` lines 426–611):
progress-deadline check, then status computation, conditional status patch,
and conditional promote-annotation clearing, then requeue-interval
calculation. -/
def reconcile_tail (r : Rollout) (env : Env) (strat : StrategyKind) : RecOutput :=
  let deadline_out : Option RecOutput :=
    match r.spec.progress_deadline_seconds with
    | none => none
    | some deadline_seconds =>
      match r.status with
      | none => none
      | some current_status =>
        if (current_status.phase = some .Progressing ∨ current_status.phase = some .Preview)
            ∧ is_progress_deadline_exceeded current_status deadline_seconds env.now then
          let failed_status :=
            { current_status with
              phase := some .Failed
              message := some ("Progress deadline exceeded: no progress made in "
                ++ toString deadline_seconds ++ " seconds") }
          some
            { statusPatches := [failed_status]
              phaseOccs := [⟨some (current_status.phase.getD .Progressing), .Failed, strat.sname⟩]
              result :=
                match env.statusPatchResult with
                | .ok _ => .requeue 30
                | .error e => .failed (.kubeError e) }
        else none
  match deadline_out with
  | some out => out
  | none =>
    let had_promote := has_promote_annot r
    let was_paused_before : Bool :=
      (r.status.map (fun s => decide (s.phase = some .Paused))).getD false
    match compute_next_status_dispatch r env.now env.wallNow with
    | none => { result := .diverged }
    | some desired_status =>
      let progressed_due_to_annot : Bool :=
        had_promote && was_paused_before && ! decide (r.status = some desired_status)
      if r.status = some desired_status then
        { result := .requeue (calculate_requeue_interval_from_rollout r desired_status env.now) }
      else
        let occs : List PhaseOcc :=
          match desired_status.phase with
          | some new_phase => [⟨r.status.bind (·.phase), new_phase, strat.sname⟩]
          | none => []
        match env.statusPatchResult with
        | .error e =>
          { statusPatches := [desired_status]
            phaseOccs := occs
            result := .failed (.kubeError e) }
        | .ok _ =>
          { statusPatches := [desired_status]
            phaseOccs := occs
            promoteCleared := progressed_due_to_annot
            result :=
              .requeue (calculate_requeue_interval_from_rollout r desired_status env.now) }

/-- A/B-conclusion section of the orchestrator (`reconcile.rs` lines
351–424): only for a spec with `abTesting` set and an observed phase of
Experimenting; a concluding evaluation is written as a Concluded status and
the invocation returns, otherwise control falls through to the tail. -/
def reconcile_ab_section (r : Rollout) (env : Env) (strat : StrategyKind) : RecOutput :=
  if r.spec.strategy.ab_testing.isSome then
    match r.status with
    | some current_status =>
      if current_status.phase = some .Experimenting then
        let evaluation := env.abEval
        if evaluation.should_conclude then
          let concluded_status :=
            { current_status with
              phase := some .Concluded
              message := some ("A/B experiment concluded: " ++ reasonDebug evaluation.reason)
              ab_experiment := some
                { started_at := ((current_status.ab_experiment.map (·.started_at)).getD
                    (.t env.now))
                  concluded_at := some (.t env.now)
                  sample_size_a := evaluation.sample_size_a
                  sample_size_b := evaluation.sample_size_b
                  results := evaluation.results
                  winner := evaluation.winner
                  conclusion_reason := evaluation.reason }
              last_decision_source := none }
          { statusPatches := [concluded_status]
            phaseOccs := [⟨some .Experimenting, .Concluded, strat.sname⟩]
            result :=
              match env.statusPatchResult with
              | .ok _ => .requeue 30
              | .error e => .failed (.kubeError e) }
        else reconcile_tail r env strat
      else reconcile_tail r env strat
    | none => reconcile_tail r env strat
  else reconcile_tail r env strat

/-- Metric-analysis section of the orchestrator (`reconcile.rs` lines
238–349): for a strategy supporting metric analysis and an observed
Progressing phase, metrics are evaluated; at advisor level Advised / Planned
/ Driven with an endpoint configured, the advisor is consulted and a
successful recommendation is recorded as an occurrence (an error is only
logged); an unhealthy evaluation writes a Failed status and returns.  The
advisor occurrences are attached to whichever output the section produces
(they are emitted before any patch, but the output record keeps the streams
in separate fields, so attachment order is immaterial). -/
def reconcile_metrics_section (r : Rollout) (env : Env) (strat : StrategyKind) : RecOutput :=
  if strat.supports_metrics_analysis then
    match r.status with
    | some current_status =>
      if current_status.phase = some .Progressing then
        match evaluate_rollout_metrics r env with
        | .error e => { result := .failed (.metricsEvaluationFailed e) }
        | .ok is_healthy =>
          let adv_occs : List AdvisorOcc :=
            if (r.spec.advisor.level = .Advised ∨ r.spec.advisor.level = .Planned
                  ∨ r.spec.advisor.level = .Driven)
                ∧ r.spec.advisor.endpoint.isSome then
              match env.advisorResult with
              | .ok recommendation => [⟨strat.sname, recommendation, is_healthy⟩]
              | .error _ => []
            else []
          if ¬ is_healthy then
            let failed_status :=
              { current_status with
                phase := some .Failed
                message := some "Rollback triggered: metrics exceeded thresholds" }
            { statusPatches := [failed_status]
              advisorOccs := adv_occs
              phaseOccs := [⟨some .Progressing, .Failed, strat.sname⟩]
              result :=
                match env.statusPatchResult with
                | .ok _ => .requeue 30
                | .error e => .failed (.kubeError e) }
          else
            { reconcile_ab_section r env strat with advisorOccs := adv_occs }
      else reconcile_ab_section r env strat
    | none => reconcile_ab_section r env strat
  else reconcile_ab_section r env strat

/-- Embedding of the reconcile orchestrator (`reconcile.rs` lines 188–611):
leader gate, namespace check, validation, strategy dispatch, the two
strategy-handler calls, then the metric / A/B / deadline / status sections. -/
def reconcile (r : Rollout) (env : Env) : RecOutput :=
  if ¬ env.isLeader then { result := .requeue 5 }
  else
    match r.metadata.ns with
    | none => { result := .failed .missingNamespace }
    | some _ =>
      match validate_rollout r with
      | .error validation_error => { result := .failed (.validationError validation_error) }
      | .ok _ =>
        let strat := select_strategy r
        match env.replicasetsResult with
        | .error e => { result := .failed (.strategyError e) }
        | .ok _ =>
          match env.trafficResult with
          | .error e => { result := .failed (.strategyError e) }
          | .ok _ => reconcile_metrics_section r env strat

/-- The `v1alpha1::RolloutSpec` as it appears to `crd/conversion.rs`: the
seven fields of the CRD struct in `crd/rollout.rs` (wire-level v1alpha1 plus
the three optional v1beta1 fields carried internally). -/
structure V1alpha1RolloutSpec where
  replicas : Int
  selector : LabelSelector
  template : PodTemplate
  strategy : StrategySpec
  max_surge : Option SurgeStr
  max_unavailable : Option SurgeStr
  progress_deadline_seconds : Option Int
deriving DecidableEq, Repr

/-- The `v1beta1::RolloutSpec` from `crd/v1beta1.rs`: the same seven fields
(the strategy and selector types are shared between the versions). -/
structure V1beta1RolloutSpec where
  replicas : Int
  selector : LabelSelector
  template : PodTemplate
  strategy : StrategySpec
  max_surge : Option SurgeStr
  max_unavailable : Option SurgeStr
  progress_deadline_seconds : Option Int
deriving DecidableEq, Repr

/-- Constant `DEFAULT_MAX_SURGE = "25%"` from `crd/conversion.rs`. -/
def DEFAULT_MAX_SURGE : SurgeStr := .percent 25

/-- Constant `DEFAULT_MAX_UNAVAILABLE = "0"` from `crd/conversion.rs`. -/
def DEFAULT_MAX_UNAVAILABLE : SurgeStr := .absolute 0

/-- Constant `DEFAULT_PROGRESS_DEADLINE_SECONDS = 600` from
`crd/conversion.rs`. -/
def DEFAULT_PROGRESS_DEADLINE_SECONDS : Int := 600

/-- Embedding of `convert_to_v1beta1` (`crd/conversion.rs` lines 28–47):
existing values pass through, absent ones get the defaults. -/
def convert_to_v1beta1 (spec : V1alpha1RolloutSpec) : V1beta1RolloutSpec :=
  { replicas := spec.replicas
    selector := spec.selector
    template := spec.template
    strategy := spec.strategy
    max_surge := spec.max_surge.orElse (fun _ => some DEFAULT_MAX_SURGE)
    max_unavailable := spec.max_unavailable.orElse (fun _ => some DEFAULT_MAX_UNAVAILABLE)
    progress_deadline_seconds :=
      spec.progress_deadline_seconds.orElse (fun _ => some DEFAULT_PROGRESS_DEADLINE_SECONDS) }

/-- Embedding of `convert_to_v1alpha1` (`crd/conversion.rs` lines 53–64):
every field is preserved. -/
def convert_to_v1alpha1 (spec : V1beta1RolloutSpec) : V1alpha1RolloutSpec :=
  { replicas := spec.replicas
    selector := spec.selector
    template := spec.template
    strategy := spec.strategy
    max_surge := spec.max_surge
    max_unavailable := spec.max_unavailable
    progress_deadline_seconds := spec.progress_deadline_seconds }

/-- UTF-8 encoding of one character as its byte values. -/
def utf8Bytes (c : Char) : List Nat :=
  let n := c.toNat
  if n < 0x80 then [n]
  else if n < 0x800 then [0xC0 + n / 0x40, 0x80 + n % 0x40]
  else if n < 0x10000 then
    [0xE0 + n / 0x1000, 0x80 + (n / 0x40) % 0x40, 0x80 + n % 0x40]
  else
    [0xF0 + n / 0x40000, 0x80 + (n / 0x1000) % 0x40, 0x80 + (n / 0x40) % 0x40, 0x80 + n % 0x40]

/-- The UTF-8 bytes of a string (the `json.as_bytes()` iteration). -/
def strBytes (s : String) : List Nat :=
  s.data.foldr (fun c acc => utf8Bytes c ++ acc) []

/-- FNV-1a 64-bit over a byte list, as in `compute_pod_template_hash`
(`controller/rollout/replicaset.rs` lines 23–27): offset basis
`0xcbf29ce484222325`, prime `0x100000001b3`, with `wrapping_mul` as
multiplication modulo `2 ^ 64`. -/
def fnv1a64 (bytes : List Nat) : Nat :=
  bytes.foldl (fun hash byte => ((hash ^^^ byte) * 0x100000001b3) % 2 ^ 64) 0xcbf29ce484222325

/-- Lowercase hex digit for a value below 16 (other inputs are
unreachable): code points 48–57 for the decimal digits, 97–102 for the
letters a–f. -/
def hexChar (d : Nat) : Char :=
  if d < 10 then Char.ofNat (48 + d)
  else if d < 16 then Char.ofNat (87 + d)
  else '?'

/-- Fuel-bounded most-significant-first hex expansion; 64 units of fuel
suffice for any `u64` (16 digits). -/
def hexRepAux : Nat → Nat → List Char
  | 0, _ => []
  | fuel + 1, n =>
    if n < 16 then [hexChar n] else hexRepAux fuel (n / 16) ++ [hexChar (n % 16)]

/-- The lowercase hex rendering `format!("{:x}", n)` of a `u64`: minimal
digits, `"0"` for zero. -/
def hexRep (n : Nat) : List Char := hexRepAux 64 n

/-- The `serde_json::to_string` canonical JSON of the modelled pod
templates: `"{}"` for an empty template, an object carrying only
`metadata.name` otherwise (matching `serde`'s skip-if-`None` field
attributes in `k8s_openapi`). -/
def serializeTemplate (t : PodTemplate) : String :=
  match t.meta_name with
  | none => "\x7b\x7d"
  | some n => "\x7b\"metadata\":\x7b\"name\":\"" ++ n ++ "\"\x7d\x7d"

/-- Hash computation on the serialized JSON, following
`compute_pod_template_hash` (`controller/rollout/replicaset.rs` lines
18–30): FNV-1a 64 over the UTF-8 bytes, rendered as minimal lowercase hex,
then the byte slice `[..10]`.  When the hex rendering has fewer than 10
characters the Rust slice indexing panics; that outcome is `none`. -/
def hashOfJson (json : String) : Option String :=
  let hex := hexRep (fnv1a64 (strBytes json))
  if hex.length < 10 then none else some ⟨hex.take 10⟩

/-- Embedding of `compute_pod_template_hash`
(`controller/rollout/replicaset.rs` lines 18–30).  Serialization of the
modelled templates cannot fail, so the `SerializationError` arm does not
arise; `none` is the slicing panic described at `hashOfJson`. -/
def compute_pod_template_hash (template : PodTemplate) : Option String :=
  hashOfJson (serializeTemplate template)

/-- JSON values, for the route-object merge-patch model. -/
inductive Json where
  | null
  | boolean (b : Bool)
  | num (n : Int)
  | str (s : String)
  | arr (items : List Json)
  | obj (fields : List (String × Json))

/-- Lookup of a key in a JSON object's field list, `null` when missing. -/
def jfieldsGet (fields : List (String × Json)) (k : String) : Json :=
  match fields.find? (fun p => p.1 == k) with
  | some p => p.2
  | none => .null

/-- Removal of a key from a JSON object's field list. -/
def jfieldsRemove (fields : List (String × Json)) (k : String) : List (String × Json) :=
  fields.filter (fun p => p.1 != k)

/-- Replacement (or append) of a key in a JSON object's field list. -/
def jfieldsSet (fields : List (String × Json)) (k : String) (v : Json) :
    List (String × Json) :=
  if fields.any (fun p => p.1 == k) then
    fields.map (fun p => if p.1 == k then (k, v) else p)
  else fields ++ [(k, v)]

/-- RFC 7386 JSON merge patch — the documented semantics of the
`Patch::Merge` / `application/merge-patch+json` requests the controller
sends (this is Kubernetes API-server behaviour, hence modelled from its
specification, not repository code): an object patch merges key by key, a
`null` member removes the key, and every non-object patch value — arrays
included — replaces the target wholesale.  Recursion is fuel-bounded by
patch depth to stay structural; the patches the controller builds have depth
three. -/
def mergePatch : Nat → Json → Json → Json
  | 0, _, patch => patch
  | fuel + 1, target, patch =>
    match patch with
    | .obj patch_fields =>
      let base :=
        match target with
        | .obj fields => fields
        | _ => []
      .obj (patch_fields.foldl
        (fun acc kv =>
          match kv.2 with
          | .null => jfieldsRemove acc kv.1
          | v => jfieldsSet acc kv.1 (mergePatch fuel (jfieldsGet acc kv.1) v))
        base)
    | p => p

/-- The merge-patch body built by `patch_httproute_weights`
(`controller/strategies/mod.rs` lines 71–77):
`{"spec": {"rules": [{"backendRefs": backend_refs}]}}`. -/
def weight_patch_json (backend_refs : Json) : Json :=
  .obj [("spec", .obj [("rules", .arr [.obj [("backendRefs", backend_refs)]])])]

/-- Result of applying the controller's weight patch to a route object with
the depth bound covering the patch. -/
def patch_httproute_weights_effect (route : Json) (backend_refs : Json) : Json :=
  mergePatch 8 route (weight_patch_json backend_refs)

/-- The ideal canary count of `calculate_replica_split_with_surge` (its
`ideal_canary` let binding), named for use in statements about the split. -/
def ideal_canary_of (total w : Int) : Int :=
  if w = 0 then 0 else if w = 100 then total else ceil_pct (total * w)

/-- A `maxSurge` / `maxUnavailable` argument is valid when absent or when
the given string passes `is_valid_surge_format` (a percentage `0..=100` or a
nonnegative absolute). -/
def ValidSurgeOpt : Option SurgeStr → Prop
  | none => True
  | some s => is_valid_surge_format s = true

/-- Membership in the lowercase hex alphabet, by code point: a decimal
digit (48–57) or one of the letters a–f (97–102). -/
def isLowerHexChar (c : Char) : Bool :=
  decide ((48 ≤ c.toNat ∧ c.toNat ≤ 57) ∨ (97 ≤ c.toNat ∧ c.toNat ≤ 102))

/-- Field lookup on a JSON object value (`null` when missing or when the
value is not an object). -/
def jsonGet (j : Json) (k : String) : Json :=
  match j with
  | .obj fields => jfieldsGet fields k
  | _ => .null

/-- Length of a JSON array value. -/
def jsonArrLen : Json → Option Nat
  | .arr items => some items.length
  | _ => none

/-- Whether a JSON object value carries the given key. -/
def jsonHasKey (j : Json) (k : String) : Bool :=
  match j with
  | .obj fields => fields.any (fun p => p.1 == k)
  | _ => false

/-- First element of a JSON array value. -/
def jsonFirst : Json → Json
  | .arr (x :: _) => x
  | _ => .null

/-! Concrete fixtures used by the claim theorems, their counterexamples and
their witnesses. -/

/-- Advisor configuration with consultation disabled. -/
def advisorOff : AdvisorConfig := { level := .Off, endpoint := none, timeout_seconds := none }

/-- An A/B strategy with a header match, used to build an abTesting-only
rollout. -/
def exABStrategy : ABStrategy :=
  { variant_a_service := "app-variant-a"
    variant_b_service := "app-variant-b"
    port := none
    variant_b_match :=
      { header := some { name := "X-Variant", value := "B", match_type := none }
        cookie := none }
    traffic_routing := none
    max_duration := none
    analysis := none }

/-- A rollout whose only populated strategy sub-object is `abTesting`. -/
def abOnlyRollout : Rollout :=
  { metadata := { name := some "ab-rollout", ns := some "default" }
    spec :=
      { replicas := 3
        selector := { match_labels := [] }
        template := { meta_name := none }
        strategy :=
          { simple := none, canary := none, blue_green := none, ab_testing := some exABStrategy }
        max_surge := none
        max_unavailable := none
        progress_deadline_seconds := none
        advisor := advisorOff }
    status := none }

/-- The same rollout without a status, for the A/B initialization arm. -/
def abInitRollout : Rollout := { abOnlyRollout with status := none }

/-- Sample `maxSurge` argument `"25%"`. -/
def exMS : Option SurgeStr := some (.percent 25)

/-- Sample `maxUnavailable` argument `"1"`. -/
def exMU : Option SurgeStr := some (.absolute 1)

/-- Pod template whose canonical JSON collides with `tColl2` on the first 10
hex digits of the 64-bit FNV-1a value (their full hashes are
`0xf9e23696217c2e6d` and `0xf9e2369621d53896`). -/
def tColl1 : PodTemplate := { meta_name := some "acby8o" }

/-- The other half of the truncated-hash collision pair. -/
def tColl2 : PodTemplate := { meta_name := some "aeah7k" }

/-- Pod template whose 64-bit FNV-1a value is `0x2a8c78da`, an 8-digit hex
rendering, on which the Rust byte-slice `[..10]` panics. -/
def tShort : PodTemplate := { meta_name := some "zaaecxf5" }

/-- A v1alpha1 spec with the three optional v1beta1 fields absent. -/
def exV1a : V1alpha1RolloutSpec :=
  { replicas := 3
    selector := { match_labels := [] }
    template := { meta_name := none }
    strategy := { simple := some { analysis := none }, canary := none, blue_green := none,
                  ab_testing := none }
    max_surge := none
    max_unavailable := none
    progress_deadline_seconds := none }

/-- Blue-green strategy with auto-promotion after 60 s. -/
def bgAutoStrategy : BlueGreenStrategy :=
  { active_service := "app-active"
    preview_service := "app-preview"
    port := none
    auto_promotion_enabled := some true
    auto_promotion_seconds := some 60
    traffic_routing := none
    analysis := none }

/-- Blue-green rollout in Preview whose preview started at instant 0, with
auto-promotion configured. -/
def bgAutoRollout : Rollout :=
  { metadata := { name := some "bg-rollout", ns := some "default" }
    spec :=
      { replicas := 5
        selector := { match_labels := [] }
        template := { meta_name := none }
        strategy :=
          { simple := none, canary := none, blue_green := some bgAutoStrategy, ab_testing := none }
        max_surge := none
        max_unavailable := none
        progress_deadline_seconds := none
        advisor := advisorOff }
    status := some
      { phase := some .Preview
        message := some "Blue-green rollout: preview environment ready"
        pause_start_time := some (.t 0) } }

/-- Canary strategy whose first step sets weight 20 and pauses for 30 s. -/
def pausedCanaryStrategy : CanaryStrategy :=
  { canary_service := "app-canary"
    stable_service := "app-stable"
    port := none
    steps := [ { set_weight := some 20, pause := some { duration := some (.secs 30) } }
             , { set_weight := some 100, pause := none } ]
    traffic_routing := none
    analysis := none }

/-- A status observed at the paused step with no `pauseStartTime`. -/
def pausedNoStartStatus : RolloutStatus :=
  { phase := some .Progressing
    current_step_index := some 0
    current_weight := some 20
    pause_start_time := none }

/-- Canary rollout carrying `pausedNoStartStatus`. -/
def pausedNoStartRollout : Rollout :=
  { metadata := { name := some "canary-rollout", ns := some "default" }
    spec :=
      { replicas := 10
        selector := { match_labels := [] }
        template := { meta_name := none }
        strategy :=
          { simple := none, canary := some pausedCanaryStrategy, blue_green := none,
            ab_testing := none }
        max_surge := none
        max_unavailable := none
        progress_deadline_seconds := none
        advisor := advisorOff }
    status := some pausedNoStartStatus }

/-- First rule of the sample HTTPRoute: a path match, a timeout, and a
backend list. -/
def exRouteRule1 : Json :=
  .obj [ ("matches", .arr [.obj [("path", .obj [("type", .str "PathPrefix"),
                                                ("value", .str "/api")])]])
       , ("timeouts", .obj [("request", .str "10s")])
       , ("backendRefs", .arr [.obj [("name", .str "app-stable"), ("port", .num 80),
                                     ("weight", .num 100)]]) ]

/-- Second rule of the sample HTTPRoute. -/
def exRouteRule2 : Json :=
  .obj [ ("matches", .arr [.obj [("path", .obj [("type", .str "PathPrefix"),
                                                ("value", .str "/admin")])]])
       , ("backendRefs", .arr [.obj [("name", .str "admin-svc"), ("port", .num 80)]]) ]

/-- A sample HTTPRoute object with two rules and a hostname list. -/
def exRoute : Json :=
  .obj [ ("apiVersion", .str "gateway.networking.k8s.io/v1")
       , ("kind", .str "HTTPRoute")
       , ("metadata", .obj [("name", .str "app-route")])
       , ("spec", .obj [ ("hostnames", .arr [.str "app.example.com"])
                       , ("rules", .arr [exRouteRule1, exRouteRule2]) ]) ]

/-- Planner output: weighted stable/canary backend references. -/
def exBackendRefs : Json :=
  .arr [ .obj [("name", .str "app-stable"), ("port", .num 80), ("weight", .num 80)]
       , .obj [("name", .str "app-canary"), ("port", .num 80), ("weight", .num 20)] ]

/-- An A/B evaluation that does not conclude. -/
def inconclusiveEval : ABExperimentEvaluation :=
  { should_conclude := false, winner := none, reason := none, results := []
    sample_size_a := none, sample_size_b := none }

/-- Observed status of the metric-rollback scenario: canary at step 0,
Progressing. -/
def c1Status : RolloutStatus :=
  { phase := some .Progressing, current_step_index := some 0, current_weight := some 20
    progress_started_at := some (.t 0) }

/-- Canary strategy with a metric analysis block and no warmup. -/
def c1Canary : CanaryStrategy :=
  { canary_service := "app-canary"
    stable_service := "app-stable"
    port := none
    steps := [{ set_weight := some 20, pause := none }]
    traffic_routing := none
    analysis := some { failure_policy := none, warmup_duration := none
                       metrics := [{ name := "error-rate" }] } }

/-- Canary rollout of the metric-rollback scenario. -/
def c1Rollout : Rollout :=
  { metadata := { name := some "demo", ns := some "default" }
    spec :=
      { replicas := 10
        selector := { match_labels := [] }
        template := { meta_name := none }
        strategy := { simple := none, canary := some c1Canary, blue_green := none
                      ab_testing := none }
        max_surge := none
        max_unavailable := none
        progress_deadline_seconds := none
        advisor := advisorOff }
    status := some c1Status }

/-- Environment in which the metrics backend reports unhealthy and every
API call succeeds. -/
def c1Env : Env :=
  { isLeader := true
    replicasetsResult := .ok ()
    trafficResult := .ok ()
    metricsResult := .ok false
    advisorResult := .ok { action := .Continue, confidence := 0, reasoning := "looks fine" }
    abEval := inconclusiveEval
    statusPatchResult := .ok ()
    promotePatchResult := .ok ()
    now := 100
    wallNow := 100 }

/-- Blue-green Preview status whose preview started at instant 0. -/
def bgPreviewStatus : RolloutStatus :=
  { phase := some .Preview
    message := some "Blue-green rollout: preview environment ready"
    pause_start_time := some (.t 0) }

/-- Blue-green strategy without auto-promotion. -/
def bgManualStrategy : BlueGreenStrategy :=
  { active_service := "app-active"
    preview_service := "app-preview"
    port := none
    auto_promotion_enabled := none
    auto_promotion_seconds := none
    traffic_routing := none
    analysis := none }

/-- Blue-green rollout in Preview with the promote annotation set. -/
def bgPromoteRollout : Rollout :=
  { metadata := { name := some "bg-promote", ns := some "default"
                  annots := [("kulta.io/promote", "true")] }
    spec :=
      { replicas := 5
        selector := { match_labels := [] }
        template := { meta_name := none }
        strategy := { simple := none, canary := none, blue_green := some bgManualStrategy
                      ab_testing := none }
        max_surge := none
        max_unavailable := none
        progress_deadline_seconds := none
        advisor := advisorOff }
    status := some bgPreviewStatus }

/-- Environment for the promote scenario: every API call succeeds. -/
def c2Env : Env :=
  { isLeader := true
    replicasetsResult := .ok ()
    trafficResult := .ok ()
    metricsResult := .ok true
    advisorResult := .error "unreachable"
    abEval := inconclusiveEval
    statusPatchResult := .ok ()
    promotePatchResult := .ok ()
    now := 10
    wallNow := 10 }

/-- Metric results with one significant winner (B) and one insignificant
entry. -/
def exAbResults : List ABMetricResult :=
  [ { name := "error-rate", is_significant := true, winner := some .B }
  , { name := "latency", is_significant := false, winner := none } ]


/-! Helper lemmas shared by the claim theorems. -/

theorem ceil_pct_nonneg (k : Int) (h : 0 ≤ k) : 0 ≤ ceil_pct k :=
  Int.ediv_nonneg (by omega) (by norm_num)

theorem parse_surge_value_nonneg (v : SurgeStr) (total : Int) (h : 0 ≤ total) :
    0 ≤ parse_surge_value v total := by
  cases v with
  | percent p =>
    simp only [parse_surge_value]
    split
    · rename_i hp
      exact ceil_pct_nonneg _ (mul_nonneg h hp.1)
    · exact le_refl 0
  | absolute a =>
    simp only [parse_surge_value]
    split <;> omega
  | bad s => exact le_refl 0

theorem ceil_pct_le_total (total p : Int) (h0 : 0 ≤ total) (hp : p ≤ 100) :
    ceil_pct (total * p) ≤ total := by
  unfold ceil_pct
  have h1 : total * p ≤ total * 100 := by nlinarith
  have h2 : (total * p + 99) / 100 ≤ (total * 100 + 99) / 100 :=
    Int.ediv_le_ediv (by norm_num) (by omega)
  have h3 : (total * 100 + 99) / 100 = total := by omega
  omega

theorem ideal_canary_of_nonneg (total w : Int) (htotal : 0 ≤ total) (hw0 : 0 ≤ w) :
    0 ≤ ideal_canary_of total w := by
  unfold ideal_canary_of
  split
  · exact le_refl 0
  · split
    · exact htotal
    · exact ceil_pct_nonneg _ (mul_nonneg htotal hw0)

theorem ideal_canary_of_le (total w : Int) (htotal : 0 ≤ total) (hw1 : w ≤ 100) :
    ideal_canary_of total w ≤ total := by
  unfold ideal_canary_of
  split
  · exact htotal
  · split
    · exact le_refl total
    · exact ceil_pct_le_total total w htotal hw1

/-- The adjustment passes of `calculate_replica_split_with_surge` never fire
for nonnegative totals and weights in `[0, 100]`: the result is the ideal
split. -/
theorem calc_split_eq (total w : Int) (ms mu : Option SurgeStr)
    (htotal : 0 ≤ total) (hw0 : 0 ≤ w) (hw1 : w ≤ 100) :
    calculate_replica_split_with_surge total w ms mu =
      (total - ideal_canary_of total w, ideal_canary_of total w) := by
  have hi0 := ideal_canary_of_nonneg total w htotal hw0
  have hi1 := ideal_canary_of_le total w htotal hw1
  have hS := parse_surge_value_nonneg (ms.getD (.percent 25)) total htotal
  have hU := parse_surge_value_nonneg (mu.getD (.absolute 0)) total htotal
  simp only [calculate_replica_split_with_surge]
  have e1 : (if w = 0 then (0 : Int) else if w = 100 then total else ceil_pct (total * w)) =
      ideal_canary_of total w := rfl
  rw [e1]
  set I := ideal_canary_of total w with hI
  set S := parse_surge_value (ms.getD (.percent 25)) total with hSdef
  set U := parse_surge_value (mu.getD (.absolute 0)) total with hUdef
  have hmax : max (total - I) 0 = total - I := by omega
  rw [hmax]
  rw [if_neg (by omega : ¬ total - I + I > total + S)]
  rw [if_neg (by omega : ¬ total - I + I < max (total - U) 0)]

theorem hexChar_isLowerHex (d : Nat) (h : d < 16) : isLowerHexChar (hexChar d) = true := by
  interval_cases d <;> rfl

theorem hexRepAux_isLowerHex (fuel n : Nat) :
    ∀ c ∈ hexRepAux fuel n, isLowerHexChar c = true := by
  induction fuel generalizing n with
  | zero => intro c hc; simp [hexRepAux] at hc
  | succ fuel ih =>
    intro c hc
    simp only [hexRepAux] at hc
    split at hc
    · rename_i hlt
      simp at hc
      exact hc ▸ hexChar_isLowerHex n hlt
    · rw [List.mem_append] at hc
      rcases hc with hc | hc
      · exact ih _ c hc
      · simp at hc
        exact hc ▸ hexChar_isLowerHex (n % 16) (Nat.mod_lt _ (by norm_num))

/-- The reconcile tail never reads the advisor outcome. -/
theorem reconcile_tail_adv_irrel (r : Rollout) (env : Env) (strat : StrategyKind)
    (a : Except String Recommendation) :
    reconcile_tail r { env with advisorResult := a } strat = reconcile_tail r env strat := by
  rfl

/-- The A/B-conclusion section never reads the advisor outcome. -/
theorem reconcile_ab_adv_irrel (r : Rollout) (env : Env) (strat : StrategyKind)
    (a : Except String Recommendation) :
    reconcile_ab_section r { env with advisorResult := a } strat =
      reconcile_ab_section r env strat := by
  rfl

/-- The advisor outcome flows only into the advisor-occurrence stream of the
metrics section, never into its status patches. -/
theorem reconcile_metrics_statusPatches_adv_indep (r : Rollout) (env : Env)
    (strat : StrategyKind) (a₁ a₂ : Except String Recommendation) :
    (reconcile_metrics_section r { env with advisorResult := a₁ } strat).statusPatches =
      (reconcile_metrics_section r { env with advisorResult := a₂ } strat).statusPatches := by
  have h₁ : evaluate_rollout_metrics r { env with advisorResult := a₁ } =
      evaluate_rollout_metrics r env := by rfl
  have h₂ : evaluate_rollout_metrics r { env with advisorResult := a₂ } =
      evaluate_rollout_metrics r env := by rfl
  simp only [reconcile_metrics_section, h₁, h₂, reconcile_ab_adv_irrel]
  split
  · split
    · split
      · split
        · rfl
        · split <;> rfl
      · rfl
    · rfl
  · rfl

/-- The status patches issued by a reconcile invocation are independent of
the advisor outcome. -/
theorem reconcile_statusPatches_advisor_indep (r : Rollout) (env : Env)
    (a₁ a₂ : Except String Recommendation) :
    (reconcile r { env with advisorResult := a₁ }).statusPatches =
      (reconcile r { env with advisorResult := a₂ }).statusPatches := by
  simp only [reconcile]
  split
  · rfl
  · split
    · rfl
    · split
      · rfl
      · split
        · rfl
        · split
          · rfl
          · exact reconcile_metrics_statusPatches_adv_indep r env _ a₁ a₂

/-! Claim theorems. -/

/-- Claim C1: for a rollout whose selected strategy supports metric analysis
and whose observed status is Progressing, a reconcile that reaches metric
evaluation (leader, valid spec, handler calls returned) and sees an
unhealthy result issues exactly one status patch — the observed status with
phase Failed and message "Rollback triggered: metrics exceeded thresholds" —
and requeues in 30 s when the patch succeeds; and the status patches issued
by that reconcile are identical for any two advisor outcomes (any
recommendation or an error): the advisor result reaches only logs and
occurrence records. -/
theorem threshold_supremacy (r : Rollout) (env : Env) (st : RolloutStatus)
    (hleader : env.isLeader = true)
    (hns : r.metadata.ns.isSome = true)
    (hval : validate_rollout r = .ok ())
    (hrs : env.replicasetsResult = .ok ())
    (htr : env.trafficResult = .ok ())
    (hsup : (select_strategy r).supports_metrics_analysis = true)
    (hst : r.status = some st)
    (hph : st.phase = some .Progressing) :
    (evaluate_rollout_metrics r env = .ok false →
      (reconcile r env).statusPatches =
        [{ st with phase := some .Failed,
                   message := some "Rollback triggered: metrics exceeded thresholds" }] ∧
      (env.statusPatchResult = .ok () → (reconcile r env).result = .requeue 30)) ∧
    (∀ a₁ a₂ : Except String Recommendation,
      (reconcile r { env with advisorResult := a₁ }).statusPatches =
        (reconcile r { env with advisorResult := a₂ }).statusPatches) := by
  constructor
  · intro hunh
    obtain ⟨ns, hns'⟩ := Option.isSome_iff_exists.mp hns
    have hred : reconcile r env = reconcile_metrics_section r env (select_strategy r) := by
      simp only [reconcile, hleader, hns', hval, hrs, htr]
      simp
    have hsec : (reconcile_metrics_section r env (select_strategy r)).statusPatches =
          [{ st with phase := some .Failed,
                     message := some "Rollback triggered: metrics exceeded thresholds" }] ∧
        (env.statusPatchResult = .ok () →
          (reconcile_metrics_section r env (select_strategy r)).result = .requeue 30) := by
      simp only [reconcile_metrics_section, hsup, hst, hph, hunh]
      refine ⟨by simp, fun hp => ?_⟩
      simp [hp]
    rw [hred]
    exact ⟨hsec.1, fun hp => hsec.2 hp⟩
  · exact fun a₁ a₂ => reconcile_statusPatches_advisor_indep r env a₁ a₂

/-- Witness for C1: the canary rollout `c1Rollout` under the unhealthy
environment `c1Env` patches exactly the Failed status and requeues in
30 s. -/
theorem threshold_supremacy_witness :
    (reconcile c1Rollout c1Env).statusPatches =
      [{ c1Status with phase := some .Failed,
                       message := some "Rollback triggered: metrics exceeded thresholds" }] ∧
    (reconcile c1Rollout c1Env).result = .requeue 30 := by
  have h := threshold_supremacy c1Rollout c1Env c1Status rfl rfl rfl rfl rfl rfl rfl rfl
  exact ⟨(h.1 rfl).1, (h.1 rfl).2 rfl⟩

/-- Claim C2 (failing-input theorem): a blue-green rollout in Preview with
the promote annotation set transitions to Completed, yet the reconcile does
not issue the follow-up patch clearing `kulta.io/promote` — the clearing is
gated on `was_paused_before`, which requires the observed phase to be
`Paused`, never `Preview` (`reconcile.rs` lines 499–512). -/
theorem promote_annot_not_cleared :
    has_promote_annot bgPromoteRollout = true ∧
    (reconcile bgPromoteRollout c2Env).statusPatches =
      [{ bgPreviewStatus with
          phase := some .Completed
          message := some "Blue-green rollout completed: promoted to production" }] ∧
    (reconcile bgPromoteRollout c2Env).promoteCleared = false :=
  ⟨by decide, by decide, by decide⟩

/-- Claim C3 (failing-input theorem): `select_strategy` has arms only for
simple, blue-green and the canary default; a rollout whose only populated
strategy sub-object is `abTesting` selects the canary handler, not the A/B
testing handler. -/
theorem dispatch_has_no_ab_arm :
    (∀ r : Rollout, select_strategy r = .simple ∨ select_strategy r = .blueGreen
        ∨ select_strategy r = .canary)
    ∧ select_strategy abOnlyRollout = .canary
    ∧ (select_strategy abOnlyRollout).sname = "canary" := by
  refine ⟨fun r => ?_, rfl, rfl⟩
  unfold select_strategy
  split
  · exact Or.inl rfl
  · split
    · exact Or.inr (Or.inl rfl)
    · exact Or.inr (Or.inr rfl)

/-- Claim C4 (failing-input theorem): the JSON merge patch
`{"spec": {"rules": [{"backendRefs": …}]}}` sent by
`patch_httproute_weights` replaces the route's whole `spec.rules` array
(RFC 7386 replaces arrays wholesale): the second rule disappears and the
first rule loses its `matches` and `timeouts`, keeping only the new
`backendRefs`; sibling fields of `spec` such as `hostnames` survive. -/
theorem weight_patch_wipes_route_rules :
    jsonArrLen (jsonGet (jsonGet exRoute "spec") "rules") = some 2 ∧
    jsonHasKey (jsonFirst (jsonGet (jsonGet exRoute "spec") "rules")) "matches" = true ∧
    jsonHasKey (jsonFirst (jsonGet (jsonGet exRoute "spec") "rules")) "timeouts" = true ∧
    jsonGet (jsonGet (patch_httproute_weights_effect exRoute exBackendRefs) "spec") "rules"
      = .arr [.obj [("backendRefs", exBackendRefs)]] ∧
    jsonArrLen (jsonGet (jsonGet (patch_httproute_weights_effect exRoute exBackendRefs) "spec")
      "rules") = some 1 ∧
    jsonHasKey (jsonFirst (jsonGet (jsonGet (patch_httproute_weights_effect exRoute
      exBackendRefs) "spec") "rules")) "matches" = false ∧
    jsonHasKey (jsonFirst (jsonGet (jsonGet (patch_httproute_weights_effect exRoute
      exBackendRefs) "spec") "rules")) "timeouts" = false ∧
    jsonGet (jsonGet (patch_httproute_weights_effect exRoute exBackendRefs) "spec") "hostnames"
      = .arr [.str "app.example.com"] :=
  ⟨rfl, rfl, rfl, rfl, rfl, rfl, rfl, rfl⟩

/-- Claim C5 (failing-input theorem): the blue-green status computer is not
a pure function of (rollout, injected now) — with the same rollout and the
same injected instant 0, two different wall-clock reads (30 and 120 seconds
after the preview start) yield Preview and Completed respectively, because
`should_auto_promote` reads `chrono::Utc::now()` directly; and the A/B
status computer stamps `abExperiment.startedAt` from a direct wall-clock
read (111) rather than the injected instant (5). -/
theorem status_computers_read_wall_clock :
    (blue_green_compute_next_status bgAutoRollout 0 30).phase = some .Preview ∧
    (blue_green_compute_next_status bgAutoRollout 0 120).phase = some .Completed ∧
    (ab_testing_compute_next_status abInitRollout 5 111).ab_experiment =
      some { started_at := .t 111, concluded_at := none, sample_size_a := none,
             sample_size_b := none, results := [], winner := none, conclusion_reason := none } :=
  ⟨rfl, rfl, rfl⟩

/-- Claim C6: for nonnegative totals, weights in `[0, 100]` and valid (or
absent, hence defaulted) `maxSurge` / `maxUnavailable` strings, the replica
planner returns nonnegative counts whose sum lies between
`max(0, total − unavailable)` and `total + surge`; weight 0 yields
`(total, 0)` and weight 100 yields `(0, total)`. -/
theorem replica_split_within_budget (total w : Int) (ms mu : Option SurgeStr)
    (htotal : 0 ≤ total) (hw0 : 0 ≤ w) (hw1 : w ≤ 100)
    (_hms : ValidSurgeOpt ms) (_hmu : ValidSurgeOpt mu) :
    0 ≤ (calculate_replica_split_with_surge total w ms mu).1 ∧
    0 ≤ (calculate_replica_split_with_surge total w ms mu).2 ∧
    max (total - parse_surge_value (mu.getD (.absolute 0)) total) 0 ≤
      (calculate_replica_split_with_surge total w ms mu).1 +
        (calculate_replica_split_with_surge total w ms mu).2 ∧
    (calculate_replica_split_with_surge total w ms mu).1 +
        (calculate_replica_split_with_surge total w ms mu).2 ≤
      total + parse_surge_value (ms.getD (.percent 25)) total ∧
    (w = 0 → calculate_replica_split_with_surge total w ms mu = (total, 0)) ∧
    (w = 100 → calculate_replica_split_with_surge total w ms mu = (0, total)) := by
  have heq := calc_split_eq total w ms mu htotal hw0 hw1
  have hi0 := ideal_canary_of_nonneg total w htotal hw0
  have hi1 := ideal_canary_of_le total w htotal hw1
  have hS := parse_surge_value_nonneg (ms.getD (.percent 25)) total htotal
  have hU := parse_surge_value_nonneg (mu.getD (.absolute 0)) total htotal
  rw [heq]
  refine ⟨by omega, by omega, by simp; omega, by simp; omega, ?_, ?_⟩
  · intro hw
    simp [ideal_canary_of, hw]
  · intro hw
    subst hw
    simp [ideal_canary_of]

/-- Witness for C6 at `total = 10`, `weight = 20`, `maxSurge = "25%"`,
`maxUnavailable = "1"`. -/
theorem replica_split_within_budget_witness :
    0 ≤ (calculate_replica_split_with_surge 10 20 exMS exMU).1 ∧
    0 ≤ (calculate_replica_split_with_surge 10 20 exMS exMU).2 ∧
    max (10 - parse_surge_value (exMU.getD (.absolute 0)) 10) 0 ≤
      (calculate_replica_split_with_surge 10 20 exMS exMU).1 +
        (calculate_replica_split_with_surge 10 20 exMS exMU).2 ∧
    (calculate_replica_split_with_surge 10 20 exMS exMU).1 +
        (calculate_replica_split_with_surge 10 20 exMS exMU).2 ≤
      10 + parse_surge_value (exMS.getD (.percent 25)) 10 ∧
    ((20 : Int) = 0 → calculate_replica_split_with_surge 10 20 exMS exMU = (10, 0)) ∧
    ((20 : Int) = 100 → calculate_replica_split_with_surge 10 20 exMS exMU = (0, 10)) :=
  replica_split_within_budget 10 20 exMS exMU (by norm_num) (by norm_num) (by norm_num)
    (by exact rfl) (by exact rfl)

/-- Counterexample for C7: two pod templates with different canonical JSON
(names `acby8o` and `aeah7k`) receive the same 10-character hash
`f9e2369621` — truncation to 40 bits loses injectivity — and the template
named `zaaecxf5` has an 8-hex-digit FNV value, on which the hash function
does not return a 10-character string but panics (modelled as `none`). -/
theorem hash_not_injective_and_can_fail :
    (serializeTemplate tColl1 ≠ serializeTemplate tColl2 ∧
      compute_pod_template_hash tColl1 = compute_pod_template_hash tColl2 ∧
      compute_pod_template_hash tColl1 = some "f9e2369621") ∧
    compute_pod_template_hash tShort = none := by
  refine ⟨⟨by decide, by decide, by decide⟩, by decide⟩

/-- Claim C7 as amended: equal canonical JSON gives equal hash (the
converse fails by the counterexample), and whenever the function returns —
that is, whenever the hex rendering of the 64-bit FNV value has at least 10
digits — the result is a string of exactly 10 lowercase hex characters. -/
theorem hash_amended :
    (∀ t₁ t₂ : PodTemplate, serializeTemplate t₁ = serializeTemplate t₂ →
       compute_pod_template_hash t₁ = compute_pod_template_hash t₂) ∧
    (∀ t s, compute_pod_template_hash t = some s →
       s.length = 10 ∧ ∀ c ∈ s.data, isLowerHexChar c = true) := by
  constructor
  · intro t₁ t₂ h
    unfold compute_pod_template_hash
    rw [h]
  · intro t s h
    simp only [compute_pod_template_hash, hashOfJson] at h
    set hex := hexRep (fnv1a64 (strBytes (serializeTemplate t))) with hhex
    split at h
    · exact absurd h (by simp)
    · rename_i hlen
      have hs : s = ⟨hex.take 10⟩ := (Option.some.injEq .. ▸ h).symm
      subst hs
      constructor
      · show (hex.take 10).length = 10
        rw [List.length_take]
        omega
      · intro c hc
        have hc' : c ∈ hex := List.mem_of_mem_take hc
        exact hexRepAux_isLowerHex 64 _ c hc'

/-- Witness for C7's amended theorem: its first part applied to `tShort`
twice, its second part applied to the concrete hash of `tColl1`. -/
theorem hash_amended_witness :
    compute_pod_template_hash tShort = compute_pod_template_hash tShort ∧
    ("f9e2369621".length = 10 ∧ ∀ c ∈ "f9e2369621".data, isLowerHexChar c = true) :=
  ⟨hash_amended.1 tShort tShort rfl,
   hash_amended.2 tColl1 "f9e2369621" (by decide)⟩

/-- Counterexample for C8: a canary rollout observed at a 30-second pause
step with no `pauseStartTime` is returned unchanged by the status computer
both immediately and arbitrarily far past the configured duration — the
pause is never started at first observation and the step never
progresses. -/
theorem missing_pause_start_never_progresses :
    compute_desired_status pausedNoStartRollout 1000 = pausedNoStartStatus ∧
    compute_desired_status pausedNoStartRollout 100000 = pausedNoStartStatus ∧
    pausedNoStartStatus.pause_start_time = none ∧
    pausedNoStartStatus.current_step_index = some 0 ∧
    should_progress_to_next_step pausedNoStartRollout 100000 = false :=
  ⟨by decide, by decide, rfl, rfl, by decide⟩

/-- Claim C8 as amended: a status without `pauseStartTime` whose current
step carries a pause is treated as indefinitely paused — without the promote
annotation the computed next status is the observed status unchanged (the
pause start is never recorded), and progression past the step requires the
promote annotation (outside a manually Paused phase). -/
theorem missing_pause_start_amended (r : Rollout) (st : RolloutStatus) (now : Int)
    (idx : Int) (c : CanaryStrategy) (step : CanaryStep) (pause : PauseSpec)
    (hst : r.status = some st)
    (hpause_start : st.pause_start_time = none)
    (hidx : st.current_step_index = some idx)
    (hc : r.spec.strategy.canary = some c)
    (hstep : stepAt c.steps idx = some step)
    (hsteppause : step.pause = some pause) :
    (has_promote_annot r = false →
      should_progress_to_next_step r now = false ∧ compute_desired_status r now = st) ∧
    (has_promote_annot r = true → st.phase ≠ some .Paused →
      should_progress_to_next_step r now = true) := by
  constructor
  · intro hpromote
    have hsp : should_progress_to_next_step r now = false := by
      by_cases hph : st.phase = some .Paused
      · simp [should_progress_to_next_step, hst, hph]
      · simp only [should_progress_to_next_step, hst, hidx, hc, hstep, hsteppause, hpromote,
          hpause_start, if_neg hph]
        cases hd : pause.duration with
        | none => simp
        | some duration_str =>
          simp only [Bool.false_eq_true, if_false]
          cases parse_duration duration_str <;> rfl
    refine ⟨hsp, ?_⟩
    simp only [compute_desired_status, hst, hsp]
    simp [hst]
  · intro hpromote hph
    simp only [should_progress_to_next_step, hst, hidx, hc, hstep, hsteppause, hpromote,
      if_neg hph]
    simp

/-- Witness for C8's amended theorem at the concrete fixture. -/
theorem missing_pause_start_amended_witness :
    should_progress_to_next_step pausedNoStartRollout 1000 = false ∧
    compute_desired_status pausedNoStartRollout 1000 = pausedNoStartStatus :=
  (missing_pause_start_amended pausedNoStartRollout pausedNoStartStatus 1000 0
      pausedCanaryStrategy
      { set_weight := some 20, pause := some { duration := some (.secs 30) } }
      { duration := some (.secs 30) }
      rfl rfl rfl rfl rfl rfl).1 rfl

/-- Counterexample for C9: a v1alpha1 spec with `maxSurge` absent does not
round-trip to itself — the defaults injected by `convert_to_v1beta1` are
preserved on the way back, so the round-trip differs from the original. -/
theorem roundtrip_fills_defaults :
    (convert_to_v1alpha1 (convert_to_v1beta1 exV1a)).max_surge = some (.percent 25) ∧
    exV1a.max_surge = none ∧
    convert_to_v1alpha1 (convert_to_v1beta1 exV1a) ≠ exV1a := by
  refine ⟨rfl, rfl, by decide⟩

/-- Claim C9 as amended: the v1alpha1→v1beta1→v1alpha1 round trip equals the
original spec with the three defaults filled into absent fields (hence it is
the identity exactly on specs whose three optional fields are set); in the
v1alpha1→v1beta1 direction the core fields pass through unchanged and
defaults are applied exactly when the corresponding field is absent; and
v1beta1→v1alpha1 preserves the three fields. -/
theorem conversion_amended :
    (∀ s : V1alpha1RolloutSpec,
      convert_to_v1alpha1 (convert_to_v1beta1 s) =
        { s with
          max_surge := some (s.max_surge.getD DEFAULT_MAX_SURGE)
          max_unavailable := some (s.max_unavailable.getD DEFAULT_MAX_UNAVAILABLE)
          progress_deadline_seconds :=
            some (s.progress_deadline_seconds.getD DEFAULT_PROGRESS_DEADLINE_SECONDS) }) ∧
    (∀ s : V1alpha1RolloutSpec,
      (convert_to_v1beta1 s).replicas = s.replicas ∧
      (convert_to_v1beta1 s).selector = s.selector ∧
      (convert_to_v1beta1 s).template = s.template ∧
      (convert_to_v1beta1 s).strategy = s.strategy ∧
      (s.max_surge = none → (convert_to_v1beta1 s).max_surge = some DEFAULT_MAX_SURGE) ∧
      (∀ v, s.max_surge = some v → (convert_to_v1beta1 s).max_surge = some v) ∧
      (s.max_unavailable = none →
        (convert_to_v1beta1 s).max_unavailable = some DEFAULT_MAX_UNAVAILABLE) ∧
      (∀ v, s.max_unavailable = some v → (convert_to_v1beta1 s).max_unavailable = some v) ∧
      (s.progress_deadline_seconds = none →
        (convert_to_v1beta1 s).progress_deadline_seconds =
          some DEFAULT_PROGRESS_DEADLINE_SECONDS) ∧
      (∀ v, s.progress_deadline_seconds = some v →
        (convert_to_v1beta1 s).progress_deadline_seconds = some v)) ∧
    (∀ b : V1beta1RolloutSpec,
      (convert_to_v1alpha1 b).max_surge = b.max_surge ∧
      (convert_to_v1alpha1 b).max_unavailable = b.max_unavailable ∧
      (convert_to_v1alpha1 b).progress_deadline_seconds = b.progress_deadline_seconds) := by
  refine ⟨?_, ?_, ?_⟩
  · intro s
    simp only [convert_to_v1beta1, convert_to_v1alpha1]
    cases hms : s.max_surge <;> cases hmu : s.max_unavailable <;>
      cases hpd : s.progress_deadline_seconds <;>
      simp [Option.orElse, hms, hmu, hpd]
  · intro s
    refine ⟨rfl, rfl, rfl, rfl, ?_, ?_, ?_, ?_, ?_, ?_⟩ <;>
      first
      | (intro h; simp [convert_to_v1beta1, h, Option.orElse])
      | (intro v h; simp [convert_to_v1beta1, h, Option.orElse])
  · intro b
    exact ⟨rfl, rfl, rfl⟩

/-- Witness for C9's amended theorem at the all-absent fixture. -/
theorem conversion_amended_witness :
    convert_to_v1alpha1 (convert_to_v1beta1 exV1a) =
      { exV1a with
        max_surge := some (exV1a.max_surge.getD DEFAULT_MAX_SURGE)
        max_unavailable := some (exV1a.max_unavailable.getD DEFAULT_MAX_UNAVAILABLE)
        progress_deadline_seconds :=
          some (exV1a.progress_deadline_seconds.getD DEFAULT_PROGRESS_DEADLINE_SECONDS) } ∧
    (convert_to_v1beta1 exV1a).max_surge = some DEFAULT_MAX_SURGE :=
  ⟨conversion_amended.1 exV1a, (conversion_amended.2.1 exV1a).2.2.2.2.1 rfl⟩

/-- Claim C10: whenever the conclusion aggregator returns, the reason is
`ConsensusReached` — the `SignificanceReached` branch is unreachable for
every input — and every significant result's winner is either absent or the
returned winner. -/
theorem ab_conclusion_consensus_only (results : List ABMetricResult)
    (w : ABVariant) (reason : ABConclusionReason)
    (h : determine_experiment_conclusion results = some (w, reason)) :
    reason = .ConsensusReached ∧
      ∀ x ∈ results, x.is_significant = true → x.winner = none ∨ x.winner = some w := by
  simp only [determine_experiment_conclusion] at h
  split at h
  · simp at h
  · split at h
    · simp at h
    · rename_i hne hsigne
      split at h
      · rename_i hcond
        obtain ⟨hw, hr⟩ := Prod.mk.injEq .. ▸ (Option.some.injEq .. ▸ h)
        refine ⟨hr ▸ rfl, ?_⟩
        intro x hx hsig
        have hxs : x ∈ results.filter (fun r => r.is_significant) :=
          List.mem_filter.mpr ⟨hx, hsig⟩
        have hb := List.countP_eq_zero.mp hcond.2 x hxs
        simp only [decide_eq_true_eq] at hb
        cases hxw : x.winner with
        | none => exact Or.inl rfl
        | some v =>
          cases v with
          | A => exact Or.inr (by rw [hw])
          | B => exact absurd hxw hb
      · split at h
        · rename_i hcond
          obtain ⟨hw, hr⟩ := Prod.mk.injEq .. ▸ (Option.some.injEq .. ▸ h)
          refine ⟨hr ▸ rfl, ?_⟩
          intro x hx hsig
          have hxs : x ∈ results.filter (fun r => r.is_significant) :=
            List.mem_filter.mpr ⟨hx, hsig⟩
          have ha := List.countP_eq_zero.mp hcond.2 x hxs
          simp only [decide_eq_true_eq] at ha
          cases hxw : x.winner with
          | none => exact Or.inl rfl
          | some v =>
            cases v with
            | B => exact Or.inr (by rw [hw])
            | A => exact absurd hxw ha
        · split at h
          · rename_i hc1 hc2 hlen
            exfalso
            have hpos : 0 < (results.filter (fun r => r.is_significant)).length := by
              cases hfe : results.filter (fun r => r.is_significant) with
              | nil => rw [hfe] at hsigne; simp at hsigne
              | cons a l => simp [hfe]
            rcases hlen with hA | hB
            · have hall := List.countP_eq_length.mp hA
              have hzero : (results.filter (fun r => r.is_significant)).countP
                  (fun r => decide (r.winner = some .B)) = 0 := by
                refine List.countP_eq_zero.mpr ?_
                intro a ha
                have := hall a ha
                simp only [decide_eq_true_eq] at this ⊢
                simp [this]
              exact hc1 ⟨by omega, hzero⟩
            · have hall := List.countP_eq_length.mp hB
              have hzero : (results.filter (fun r => r.is_significant)).countP
                  (fun r => decide (r.winner = some .A)) = 0 := by
                refine List.countP_eq_zero.mpr ?_
                intro a ha
                have := hall a ha
                simp only [decide_eq_true_eq] at this ⊢
                simp [this]
              exact hc2 ⟨by omega, hzero⟩
          · simp at h

/-- Witness for C10 at a result list whose one significant metric names
winner B. -/
theorem ab_conclusion_consensus_only_witness :
    ABConclusionReason.ConsensusReached = ABConclusionReason.ConsensusReached ∧
      ∀ x ∈ exAbResults, x.is_significant = true →
        x.winner = none ∨ x.winner = some ABVariant.B :=
  ab_conclusion_consensus_only exAbResults .B .ConsensusReached (by decide)

end Kulta
